import Mathlib

/-!
Verification of the mx-sdk-rs call-value, token-identifier, scenario and mock-engine
layers. Rust managed buffers are embedded as lists of byte values (`List Nat`),
big unsigned integers as `Nat`, and fallible VM calls (`signal_error`) as `Except`.
-/

namespace MxSdk

/-- Byte strings, standing in for `ManagedBuffer` and heap byte vectors. -/
abbrev Bytes := List Nat

/-- Helper to write byte strings readably; byte values of the characters of `s`. -/
def strBytes (s : String) : Bytes := s.toList.map Char.toNat

/-- `TokenIdentifier<M>`: a thin wrapper around a byte buffer. -/
abbrev TokenIdentifier := Bytes

/-! ## Token identifier model (`moax_or_dct_token_identifier.rs`) -/

/-- `MoaxOrDctTokenIdentifier::MOAX_REPRESENTATION`, the reserved 4-byte marker `b"MOAX"`. -/
def MOAX_REPRESENTATION : Bytes := strBytes "MOAX"

/-- `MoaxOrDctTokenIdentifier<M>`: either the native MOAX coin or a DCT token
identifier. The Rust type stores a `ManagedOption<TokenIdentifier>` where `none`
encodes MOAX; we embed it as the equivalent two-variant sum. -/
inductive MoaxOrDctTokenIdentifier where
  | moax : MoaxOrDctTokenIdentifier
  | dct : TokenIdentifier → MoaxOrDctTokenIdentifier
deriving DecidableEq, Repr

namespace MoaxOrDctTokenIdentifier

/-- `MoaxOrDctTokenIdentifier::parse`: the reserved marker yields MOAX, any other
byte string is wrapped as a token identifier. -/
def parse (data : Bytes) : MoaxOrDctTokenIdentifier :=
  if data = MOAX_REPRESENTATION then .moax else .dct data

/-- `is_moax` discriminant. -/
def is_moax : MoaxOrDctTokenIdentifier → Bool
  | .moax => true
  | .dct _ => false

/-- `TopEncode for MoaxOrDctTokenIdentifier`: MOAX writes the 4-byte marker,
a token value writes its identifier bytes verbatim. -/
def top_encode : MoaxOrDctTokenIdentifier → Bytes
  | .moax => MOAX_REPRESENTATION
  | .dct token_identifier => token_identifier

/-- `PartialEq<TokenIdentifier> for MoaxOrDctTokenIdentifier`: via `map_ref_or_else`,
the MOAX case is `false` unconditionally, the DCT case compares identifiers. -/
def eq_token_identifier : MoaxOrDctTokenIdentifier → TokenIdentifier → Bool
  | .moax, _ => false
  | .dct self_id, other => decide (self_id = other)

/-- `PartialEq for MoaxOrDctTokenIdentifier`: compares the underlying
`ManagedOption` data, so MOAX equals only MOAX. -/
def eq_self : MoaxOrDctTokenIdentifier → MoaxOrDctTokenIdentifier → Bool
  | .moax, .moax => true
  | .dct a, .dct b => decide (a = b)
  | .moax, .dct _ => false
  | .dct _, .moax => false

end MoaxOrDctTokenIdentifier

/-- Modelled from the spec: `TokenIdentifier::is_valid_dct_identifier` is not among
the shown sources. Ticker characters are uppercase alphanumeric: `A`-`Z` or `0`-`9`. -/
def is_ticker_char (c : Nat) : Bool :=
  (decide (65 ≤ c) && decide (c ≤ 90)) || (decide (48 ≤ c) && decide (c ≤ 57))

/-- Modelled from the spec: lowercase-hex suffix characters are `0`-`9` or `a`-`f`. -/
def is_hex_lower_char (c : Nat) : Bool :=
  (decide (48 ≤ c) && decide (c ≤ 57)) || (decide (97 ≤ c) && decide (c ≤ 102))

/-- Modelled from the spec: `TokenIdentifier::is_valid_dct_identifier` is not among
the shown sources; the spec requires a ticker of 3–10 uppercase alphanumeric
characters, a dash, then a 6-character lowercase-hex suffix. The dash therefore sits
at position `length - 7` and the whole identifier is 10 to 17 bytes long. -/
def is_valid_dct_identifier (b : Bytes) : Bool :=
  let n := b.length
  decide (10 ≤ n) && decide (n ≤ 17) &&
  (b.take (n - 7)).all is_ticker_char &&
  decide (b.getD (n - 7) 0 = 45) &&
  (b.drop (n - 6)).all is_hex_lower_char

/-- `MoaxOrDctTokenIdentifier::is_valid`: MOAX is always valid, a DCT value is
checked by `is_valid_dct_identifier`. -/
def MoaxOrDctTokenIdentifier.is_valid : MoaxOrDctTokenIdentifier → Bool
  | .moax => true
  | .dct token_identifier => is_valid_dct_identifier token_identifier

/-- The validity shape stated by the spec, as a declarative decomposition:
a ticker of 3–10 uppercase alphanumeric bytes, the dash byte 45, and a
6-byte lowercase-hex suffix. -/
def ValidDctIdentifierSpec (b : Bytes) : Prop :=
  ∃ ticker suffix : Bytes,
    b = ticker ++ 45 :: suffix ∧
    3 ≤ ticker.length ∧ ticker.length ≤ 10 ∧
    ticker.all is_ticker_char = true ∧
    suffix.length = 6 ∧
    suffix.all is_hex_lower_char = true

/-! ## Call value resolver (`call_value_api.rs`, `call_value_wrapper.rs`) -/

/-- `DctTokenPayment<M>`: one DCT transfer, a triple of token identifier, nonce and
amount. -/
structure DctTokenPayment where
  token_identifier : TokenIdentifier
  token_nonce : Nat
  amount : Nat
deriving DecidableEq, Repr, Inhabited

/-- `MoaxOrDctTokenPayment<M>`: a payment whose identifier may also be MOAX. -/
structure MoaxOrDctTokenPayment where
  token_identifier : MoaxOrDctTokenIdentifier
  token_nonce : Nat
  amount : Nat
deriving DecidableEq, Repr

/-- `From<DctTokenPayment> for MoaxOrDctTokenPayment` (the `.into()` used by
`moax_or_single_dct`): keeps nonce and amount, wraps the identifier as DCT. -/
def DctTokenPayment.into_moax_or_dct (p : DctTokenPayment) : MoaxOrDctTokenPayment :=
  { token_identifier := .dct p.token_identifier
    token_nonce := p.token_nonce
    amount := p.amount }

/-- The call-value data held by the VM for the current call: the MOAX amount and the
indexed DCT transfers that `CallValueApiImpl` exposes per index. -/
structure CallValueState where
  moax_value : Nat
  dct_transfers : List DctTokenPayment
deriving DecidableEq, Repr

/-- `CallValueApiImpl::dct_num_transfers`. -/
def dct_num_transfers (api : CallValueState) : Nat := api.dct_transfers.length

/-- `CallValueApiImpl::token_by_index`: identifier of the transfer at `index`. -/
def token_by_index (api : CallValueState) (index : Nat) : TokenIdentifier :=
  (api.dct_transfers.getD index default).token_identifier

/-- `CallValueApiImpl::dct_token_nonce_by_index`: nonce of the transfer at `index`. -/
def dct_token_nonce_by_index (api : CallValueState) (index : Nat) : Nat :=
  (api.dct_transfers.getD index default).token_nonce

/-- `CallValueApiImpl::dct_value_by_index`: amount of the transfer at `index`. -/
def dct_value_by_index (api : CallValueState) (index : Nat) : Nat :=
  (api.dct_transfers.getD index default).amount

/-- `load_all_dct_transfers_from_unmanaged`: queries the transfer count, overwrites
the destination with the empty collection, then for `i` in `0..num_transfers`
fetches the (identifier, nonce, amount) triple at index `i` and appends it. -/
def load_all_dct_transfers_from_unmanaged (api : CallValueState) : List DctTokenPayment :=
  let num_transfers := dct_num_transfers api
  (List.range num_transfers).foldl
    (fun dest i =>
      dest ++ [{ token_identifier := token_by_index api i
                 token_nonce := dct_token_nonce_by_index api i
                 amount := dct_value_by_index api i }])
    []

/-- `err_msg::INCORRECT_NUM_DCT_TRANSFERS`. -/
def INCORRECT_NUM_DCT_TRANSFERS : String := "incorrect number of DCT transfers"

/-- `err_msg::FUNGIBLE_TOKEN_EXPECTED_ERR_MSG`. -/
def FUNGIBLE_TOKEN_EXPECTED_ERR_MSG : String := "fungible DCT token expected"

/-- `CallValueWrapper::moax_value`: the memoized MOAX call value. -/
def moax_value (cv : CallValueState) : Nat := cv.moax_value

/-- `CallValueWrapper::all_dct_transfers`: the memoized result of
`load_all_dct_transfers`, which defaults to `load_all_dct_transfers_from_unmanaged`. -/
def all_dct_transfers (cv : CallValueState) : List DctTokenPayment :=
  load_all_dct_transfers_from_unmanaged cv

/-- `CallValueWrapper::multi_dct::<N>`: `to_array_of_refs::<N>` succeeds exactly when
the transfer count equals `N`; otherwise `signal_error` with the incorrect-count
message. -/
def multi_dct (cv : CallValueState) (n : Nat) : Except String (List DctTokenPayment) :=
  if (all_dct_transfers cv).length = n then .ok (all_dct_transfers cv)
  else .error INCORRECT_NUM_DCT_TRANSFERS

/-- `CallValueWrapper::single_dct`: destructures `multi_dct::<1>` into its sole
payment. -/
def single_dct (cv : CallValueState) : Except String DctTokenPayment :=
  match multi_dct cv 1 with
  | .ok payments => .ok (payments.headD default)
  | .error e => .error e

/-- `CallValueWrapper::single_fungible_dct`: `single_dct`, then `signal_error` if the
nonce is nonzero, else the (identifier, amount) pair. -/
def single_fungible_dct (cv : CallValueState) : Except String (TokenIdentifier × Nat) :=
  match single_dct cv with
  | .ok payment =>
    if payment.token_nonce ≠ 0 then .error FUNGIBLE_TOKEN_EXPECTED_ERR_MSG
    else .ok (payment.token_identifier, payment.amount)
  | .error e => .error e

/-- `CallValueWrapper::moax_or_single_dct`: three-way match on the number of DCT
transfers — 0 gives a MOAX payment of the MOAX call value, 1 gives that sole
transfer, more gives `signal_error`. -/
def moax_or_single_dct (cv : CallValueState) : Except String MoaxOrDctTokenPayment :=
  match (all_dct_transfers cv).length with
  | 0 => .ok { token_identifier := .moax, token_nonce := 0, amount := moax_value cv }
  | 1 => .ok ((all_dct_transfers cv).headD default).into_moax_or_dct
  | _ + 2 => .error INCORRECT_NUM_DCT_TRANSFERS

/-- `CallValueWrapper::moax_or_single_fungible_dct`: `moax_or_single_dct`, then
`signal_error` if the resolved nonce is nonzero, else (identifier, amount). -/
def moax_or_single_fungible_dct (cv : CallValueState) :
    Except String (MoaxOrDctTokenIdentifier × Nat) :=
  match moax_or_single_dct cv with
  | .ok payment =>
    if payment.token_nonce ≠ 0 then .error FUNGIBLE_TOKEN_EXPECTED_ERR_MSG
    else .ok (payment.token_identifier, payment.amount)
  | .error e => .error e

/-! ## Result checker (`tx_log.rs` and the denali check model) -/

/-- Modelled from the spec: the denali `CheckValue` pattern type is not among the
shown sources. A pattern is unspecified, a wildcard star, or an exact expected
value; unspecified and star match anything, exact requires equality. -/
inductive CheckPattern (α : Type) where
  | unspecified : CheckPattern α
  | star : CheckPattern α
  | equal : α → CheckPattern α

/-- Modelled from the spec: `Checkable::check` for a single pattern. -/
def CheckPattern.check [DecidableEq α] : CheckPattern α → α → Bool
  | .unspecified, _ => true
  | .star, _ => true
  | .equal expected, actual => decide (expected = actual)

/-- `TxLog`: emitting address, endpoint name, topic list and data payload. -/
structure TxLog where
  address : Bytes
  endpoint : Bytes
  topics : List Bytes
  data : Bytes
deriving DecidableEq, Repr

/-- Modelled from the spec: the denali `CheckLog` record, one pattern per `TxLog`
field. -/
structure CheckLog where
  address : CheckPattern Bytes
  endpoint : CheckPattern Bytes
  topics : CheckPattern (List Bytes)
  data : CheckPattern Bytes

/-- `TxLog::denali_check`: the conjunction of the four per-field checks. -/
def TxLog.denali_check (log : TxLog) (check_log : CheckLog) : Bool :=
  check_log.address.check log.address &&
  check_log.endpoint.check log.endpoint &&
  check_log.topics.check log.topics &&
  check_log.data.check log.data

/-! ## Mock execution engine call frames (modelled from the spec) -/

/-- Addresses in the mock World State. -/
abbrev Address := Bytes

/-- Modelled from the spec: one account of the World State — native balance,
per-token balances keyed by (identifier, nonce), and storage. -/
structure Account where
  moax_balance : Nat
  dct_balances : List (TokenIdentifier × Nat × Nat)
  storage : List (Bytes × Bytes)
deriving DecidableEq, Repr

/-- Modelled from the spec: the World State, a mapping from address to account. -/
abbrev WorldState := List (Address × Account)

/-- Modelled from the spec: terminal frame states of the per-frame state machine. -/
inductive FrameStatus where
  | committed : FrameStatus
  | rolledBack : FrameStatus
deriving DecidableEq, Repr

/-- Modelled from the spec: the nested-call kinds whose failure behavior differs —
synchronous rollback undoes value movement, transfer-and-execute moves value
unconditionally. -/
inductive CallKind where
  | sync : CallKind
  | transferExecute : CallKind
deriving DecidableEq, Repr

/-- Result of one nested call frame as seen by the resuming parent. -/
structure NestedCallResult where
  status : FrameStatus
  world : WorldState
  logs : List TxLog
  failure : Option String

/-- Modelled from the spec: the mock execution engine is not among the shown
sources. One nested call: on entry the engine snapshots the World State and applies
the call's value movement; the frame body runs on the post-transfer state and either
returns a new state with its pending logs or fails. On success the frame commits
state and logs to the parent. On failure the engine restores the snapshot taken at
entry and discards the pending logs — except that a transfer-and-execute call keeps
its unconditional value movement applied to the snapshot. -/
def run_nested_call (kind : CallKind) (ws : WorldState)
    (value_transfer : WorldState → WorldState)
    (body : WorldState → Except String (WorldState × List TxLog)) : NestedCallResult :=
  match body (value_transfer ws) with
  | .ok (ws_final, logs) =>
    { status := .committed, world := ws_final, logs := logs, failure := none }
  | .error e =>
    match kind with
    | .sync =>
      { status := .rolledBack, world := ws, logs := [], failure := some e }
    | .transferExecute =>
      { status := .rolledBack, world := value_transfer ws, logs := [],
        failure := some e }

/-! ## Scenario transaction descriptor (`tx_call.rs`) -/

/-- Modelled from the spec: denali `AddressValue`, kept as its raw text plus the
resolved address bytes. -/
structure AddressValue where
  value : Address
  original : String
deriving DecidableEq, Repr

/-- `AddressValue::into_raw`. -/
def AddressValue.into_raw (a : AddressValue) : String := a.original

/-- Modelled from the spec: denali `BigUintValue`, a parsed amount plus its raw
text. -/
structure BigUintValue where
  value : Nat
  original : String
deriving DecidableEq, Repr

/-- Modelled from the spec: `BigUintValue::into_raw_opt` is not among the shown
sources; modelled as emitting the raw text of a nonzero amount and omitting a zero
amount. The C10 theorem does not depend on this choice. -/
def BigUintValue.into_raw_opt (v : BigUintValue) : Option String :=
  if v.value = 0 then none else some v.original

/-- Modelled from the spec: denali `BytesValue`. -/
structure BytesValue where
  value : Bytes
  original : String
deriving DecidableEq, Repr

/-- `BytesValue::into_raw`. -/
def BytesValue.into_raw (b : BytesValue) : String := b.original

/-- Modelled from the spec: denali `U64Value`. -/
structure U64Value where
  value : Nat
  original : String
deriving DecidableEq, Repr

/-- `U64Value::into_raw`. -/
def U64Value.into_raw (v : U64Value) : String := v.original

/-- Modelled from the spec: denali `TxDCT`, one token-transfer record of the
fixture. -/
structure TxDCT where
  token_identifier : BytesValue
  nonce : U64Value
  value : BigUintValue
deriving DecidableEq, Repr

/-- Raw form of one token-transfer record. -/
structure TxDCTRaw where
  token_identifier : String
  nonce : String
  value : String
deriving DecidableEq, Repr

/-- Modelled from the spec: `TxDCT::into_raw`. -/
def TxDCT.into_raw (t : TxDCT) : TxDCTRaw :=
  { token_identifier := t.token_identifier.into_raw
    nonce := t.nonce.into_raw
    value := t.value.into_raw_opt.getD "0" }

/-- `TxCall`: the typed transaction descriptor of one scenario call. The Rust fields
`from` and `to` clash with Lean keywords and are embedded as `from_` and `to_`. -/
structure TxCall where
  from_ : AddressValue
  to_ : AddressValue
  moax_value : BigUintValue
  dct_value : List TxDCT
  function : String
  arguments : List BytesValue
  gas_limit : U64Value
  gas_price : U64Value
deriving DecidableEq, Repr

/-- `TxCallRaw`: the raw fixture record. The native amount has two spellings, the
legacy bare `value` field and the explicit `moaxValue` field, both optional. -/
structure TxCallRaw where
  from_ : String
  to_ : String
  value : Option String
  moax_value : Option String
  dct_value : List TxDCTRaw
  function : String
  arguments : List String
  gas_limit : String
  gas_price : String
deriving DecidableEq, Repr

/-- `TxCall::into_raw`: regenerates the raw record; the legacy `value` field is
always emitted as `None` and the native amount goes under `moax_value` via
`into_raw_opt`. -/
def TxCall.into_raw (tx : TxCall) : TxCallRaw :=
  { from_ := tx.from_.into_raw
    to_ := tx.to_.into_raw
    value := none
    moax_value := tx.moax_value.into_raw_opt
    dct_value := tx.dct_value.map TxDCT.into_raw
    function := tx.function
    arguments := tx.arguments.map BytesValue.into_raw
    gas_limit := tx.gas_limit.into_raw
    gas_price := tx.gas_price.into_raw }

/-! ## Helper lemmas -/

/-- Folding append-of-singleton over a list builds the map, after the initial
accumulator. -/
lemma foldl_append_eq_map (f : Nat → α) :
    ∀ (l : List Nat) (init : List α),
      l.foldl (fun dest i => dest ++ [f i]) init = init ++ l.map f
  | [], init => by simp
  | i :: t, init => by
    rw [List.foldl_cons, foldl_append_eq_map f t, List.map_cons]
    simp

/-- Reading every index of a list back in order reproduces the list. -/
lemma map_getD_range (d : α) :
    ∀ l : List α, (List.range l.length).map (fun i => l.getD i d) = l
  | [] => rfl
  | a :: t => by
    rw [List.length_cons, List.range_succ_eq_map, List.map_cons, List.map_map]
    have hcomp : ((fun i => (a :: t).getD i d) ∘ Nat.succ) = fun i => t.getD i d := by
      funext i
      simp [List.getD_cons_succ]
    rw [List.getD_cons_zero, hcomp, map_getD_range d t]

/-- The loaded transfer list is exactly the VM's indexed transfer list. -/
lemma all_dct_transfers_eq (cv : CallValueState) :
    all_dct_transfers cv = cv.dct_transfers := by
  unfold all_dct_transfers load_all_dct_transfers_from_unmanaged
  rw [foldl_append_eq_map, List.nil_append]
  have hfun : (fun i => ({ token_identifier := token_by_index cv i
                           token_nonce := dct_token_nonce_by_index cv i
                           amount := dct_value_by_index cv i } : DctTokenPayment))
      = fun i => cv.dct_transfers.getD i default := rfl
  rw [hfun]
  exact map_getD_range default cv.dct_transfers

/-- Soundness of the executable validity check against the declarative shape. -/
lemma valid_dct_sound (b : Bytes) (h : is_valid_dct_identifier b = true) :
    ValidDctIdentifierSpec b := by
  unfold is_valid_dct_identifier at h
  simp only [Bool.and_eq_true, decide_eq_true_eq] at h
  obtain ⟨⟨⟨⟨h10, h17⟩, hticker⟩, hdash⟩, hsuffix⟩ := h
  have h7 : b.length - 7 < b.length := by omega
  have hidx : b.getD (b.length - 7) 0 = b[b.length - 7] := List.getD_eq_getElem b 0 h7
  have hdecomp : b = b.take (b.length - 7) ++ 45 :: b.drop (b.length - 6) := by
    have hsplit : b.take (b.length - 7) ++ b.drop (b.length - 7) = b :=
      List.take_append_drop _ b
    have hdrop : b.drop (b.length - 7) = b[b.length - 7] :: b.drop (b.length - 7 + 1) :=
      List.drop_eq_getElem_cons h7
    have harith : b.length - 7 + 1 = b.length - 6 := by omega
    rw [harith] at hdrop
    conv_lhs => rw [← hsplit]
    rw [hdrop, ← hidx, hdash]
  refine ⟨b.take (b.length - 7), b.drop (b.length - 6), hdecomp, ?_, ?_, hticker, ?_, hsuffix⟩
  · rw [List.length_take]
    omega
  · rw [List.length_take]
    omega
  · rw [List.length_drop]
    omega

/-- Completeness of the executable validity check against the declarative shape. -/
lemma valid_dct_complete (b : Bytes) (h : ValidDctIdentifierSpec b) :
    is_valid_dct_identifier b = true := by
  obtain ⟨t, s, hb, ht3, ht10, htall, hs6, hsall⟩ := h
  subst hb
  unfold is_valid_dct_identifier
  have hlen : (t ++ 45 :: s).length = t.length + 7 := by
    rw [List.length_append, List.length_cons, hs6]
  simp only [Bool.and_eq_true, decide_eq_true_eq]
  have h7 : (t ++ 45 :: s).length - 7 = t.length := by omega
  have h6 : (t ++ 45 :: s).length - 6 = t.length + 1 := by omega
  refine ⟨⟨⟨⟨by omega, by omega⟩, ?_⟩, ?_⟩, ?_⟩
  · rw [h7, List.take_left]
    exact htall
  · rw [h7, List.getD_append_right t (45 :: s) 0 t.length (by omega)]
    simp
  · rw [h6]
    have hdd : (t ++ 45 :: s).drop (t.length + 1) = ((t ++ 45 :: s).drop t.length).drop 1 := by
      rw [List.drop_drop]
    rw [hdd, List.drop_left]
    exact hsall

/-! ## Claim theorems: token identifier model -/

/-- Claim C3: `parse(bytes)` yields MOAX exactly when the bytes equal the reserved
4-byte marker `b"MOAX"`, and otherwise yields a token value wrapping exactly those
bytes; serializing MOAX writes the marker, serializing a token value writes its
identifier bytes verbatim, MOAX round-trips through serialize-then-parse, and the
marker is 4 bytes long. -/
theorem moax_or_dct_parse_top_encode (data : Bytes) :
    (MoaxOrDctTokenIdentifier.parse data = .moax ↔ data = MOAX_REPRESENTATION) ∧
    (data ≠ MOAX_REPRESENTATION → MoaxOrDctTokenIdentifier.parse data = .dct data) ∧
    MoaxOrDctTokenIdentifier.top_encode .moax = MOAX_REPRESENTATION ∧
    (∀ t, MoaxOrDctTokenIdentifier.top_encode (.dct t) = t) ∧
    MoaxOrDctTokenIdentifier.parse (MoaxOrDctTokenIdentifier.top_encode .moax) = .moax ∧
    MOAX_REPRESENTATION.length = 4 := by
  refine ⟨?_, ?_, rfl, fun t => rfl, ?_, by decide⟩
  · unfold MoaxOrDctTokenIdentifier.parse
    by_cases h : data = MOAX_REPRESENTATION
    · simp [h]
    · simp [h]
  · intro h
    unfold MoaxOrDctTokenIdentifier.parse
    rw [if_neg h]
  · simp [MoaxOrDctTokenIdentifier.parse, MoaxOrDctTokenIdentifier.top_encode]

/-- Witness for C3 at concrete inputs: a non-marker byte string parses to a token
value and the marker parses back to MOAX. -/
theorem moax_or_dct_parse_top_encode_witness :
    MoaxOrDctTokenIdentifier.parse [65] = .dct [65] ∧
    MoaxOrDctTokenIdentifier.parse MOAX_REPRESENTATION = .moax :=
  ⟨(moax_or_dct_parse_top_encode [65]).2.1 (by decide),
   (moax_or_dct_parse_top_encode MOAX_REPRESENTATION).1.mpr rfl⟩

/-- Claim C4: `is_valid()` is unconditionally true for MOAX; for a token value it is
true iff the identifier is a 3–10 character uppercase-alphanumeric ticker, a dash,
and a 6-character lowercase-hex suffix — verified also on the four test vectors
`"ALC-6258d2"`, `"12345-6258d2"`, `"AL-C6258d2"`, `"ALCCCCCCCCC-6258d2"`. -/
theorem moax_or_dct_is_valid :
    MoaxOrDctTokenIdentifier.is_valid .moax = true ∧
    (∀ t, MoaxOrDctTokenIdentifier.is_valid (.dct t) = true ↔ ValidDctIdentifierSpec t) ∧
    MoaxOrDctTokenIdentifier.is_valid (.dct (strBytes "ALC-6258d2")) = true ∧
    MoaxOrDctTokenIdentifier.is_valid (.dct (strBytes "12345-6258d2")) = true ∧
    MoaxOrDctTokenIdentifier.is_valid (.dct (strBytes "AL-C6258d2")) = false ∧
    MoaxOrDctTokenIdentifier.is_valid (.dct (strBytes "ALCCCCCCCCC-6258d2")) = false := by
  refine ⟨rfl, fun t => ⟨valid_dct_sound t, valid_dct_complete t⟩, ?_, ?_, ?_, ?_⟩
  · decide
  · decide
  · decide
  · decide

/-- Claim C9: equality with a `TokenIdentifier` is decided on the resolved
identifier, never on the absence encoding: MOAX compares unequal to every token
identifier, including one whose bytes are exactly the reserved marker, and the MOAX
value and the `b"MOAX"`-byte token value are distinct in memory even though they
serialize to the same bytes and both parse back to MOAX. -/
theorem moax_neq_any_token_identifier (t : TokenIdentifier) :
    MoaxOrDctTokenIdentifier.eq_token_identifier .moax t = false ∧
    MoaxOrDctTokenIdentifier.eq_token_identifier .moax MOAX_REPRESENTATION = false ∧
    MoaxOrDctTokenIdentifier.eq_self .moax (.dct MOAX_REPRESENTATION) = false ∧
    MoaxOrDctTokenIdentifier.moax ≠ .dct MOAX_REPRESENTATION ∧
    MoaxOrDctTokenIdentifier.top_encode (.dct MOAX_REPRESENTATION) =
      MoaxOrDctTokenIdentifier.top_encode .moax ∧
    MoaxOrDctTokenIdentifier.parse
      (MoaxOrDctTokenIdentifier.top_encode (.dct MOAX_REPRESENTATION)) = .moax := by
  refine ⟨rfl, rfl, rfl, ?_, rfl, ?_⟩
  · intro h
    exact MoaxOrDctTokenIdentifier.noConfusion h
  · simp [MoaxOrDctTokenIdentifier.parse, MoaxOrDctTokenIdentifier.top_encode]

/-! ## Claim theorems: call value resolver -/

/-- Claim C2: the multi-transfer loading algorithm queries the transfer count,
clears the destination, iterates indices `0..N` fetching the (identifier, nonce,
amount) triples and appending in index order, so the result has exactly `N` entries
reproducing the supplied triples in submission order, and is empty when no DCT
transfer was carried. -/
theorem load_all_transfers_exact (api : CallValueState) :
    load_all_dct_transfers_from_unmanaged api = api.dct_transfers ∧
    (load_all_dct_transfers_from_unmanaged api).length = dct_num_transfers api ∧
    (∀ i, (load_all_dct_transfers_from_unmanaged api).getD i default =
      api.dct_transfers.getD i default) ∧
    load_all_dct_transfers_from_unmanaged
      { moax_value := api.moax_value, dct_transfers := [] } = [] := by
  have h : load_all_dct_transfers_from_unmanaged api = api.dct_transfers :=
    all_dct_transfers_eq api
  refine ⟨h, ?_, ?_, rfl⟩
  · rw [h]
    rfl
  · intro i
    rw [h]

/-- Claim C1: `moax_or_single_dct` resolves three ways by the number of DCT
transfers — zero transfers give a MOAX payment of nonce 0 carrying the call's MOAX
value (possibly 0), one transfer gives exactly that transfer, and two or more
signal the incorrect-count error instead of returning. -/
theorem moax_or_single_dct_three_way (cv : CallValueState) :
    (cv.dct_transfers = [] →
      moax_or_single_dct cv =
        .ok { token_identifier := .moax, token_nonce := 0, amount := cv.moax_value }) ∧
    (∀ p, cv.dct_transfers = [p] →
      moax_or_single_dct cv = .ok p.into_moax_or_dct) ∧
    (2 ≤ cv.dct_transfers.length →
      moax_or_single_dct cv = .error INCORRECT_NUM_DCT_TRANSFERS) := by
  refine ⟨?_, ?_, ?_⟩
  · intro h
    unfold moax_or_single_dct
    rw [all_dct_transfers_eq, h]
    rfl
  · intro p h
    unfold moax_or_single_dct
    rw [all_dct_transfers_eq, h]
    rfl
  · intro h
    unfold moax_or_single_dct
    rw [all_dct_transfers_eq]
    obtain ⟨k, hk⟩ := Nat.exists_eq_add_of_le h
    rw [hk, Nat.add_comm 2 k]

/-- Witness for C1: the three resolutions at concrete call values. -/
theorem moax_or_single_dct_three_way_witness :
    moax_or_single_dct { moax_value := 7, dct_transfers := [] } =
      .ok { token_identifier := .moax, token_nonce := 0, amount := 7 } ∧
    moax_or_single_dct { moax_value := 0, dct_transfers := [⟨[65], 5, 100⟩] } =
      .ok { token_identifier := .dct [65], token_nonce := 5, amount := 100 } ∧
    moax_or_single_dct
        { moax_value := 0, dct_transfers := [⟨[65], 0, 1⟩, ⟨[66], 0, 2⟩] } =
      .error INCORRECT_NUM_DCT_TRANSFERS :=
  ⟨(moax_or_single_dct_three_way _).1 rfl,
   (moax_or_single_dct_three_way _).2.1 ⟨[65], 5, 100⟩ rfl,
   (moax_or_single_dct_three_way _).2.2 (by decide)⟩

/-- Claim C6: `multi_dct::<N>` returns exactly the received transfers when the
actual count equals `N` and signals the incorrect-count error whenever it differs;
`single_dct` is the `N = 1` instance, returning the sole transfer and failing
otherwise. -/
theorem multi_dct_fixed_count (cv : CallValueState) (n : Nat) :
    (dct_num_transfers cv = n → multi_dct cv n = .ok cv.dct_transfers) ∧
    (dct_num_transfers cv ≠ n → multi_dct cv n = .error INCORRECT_NUM_DCT_TRANSFERS) ∧
    (∀ p, cv.dct_transfers = [p] → single_dct cv = .ok p) ∧
    (dct_num_transfers cv ≠ 1 → single_dct cv = .error INCORRECT_NUM_DCT_TRANSFERS) := by
  have hnum : dct_num_transfers cv = cv.dct_transfers.length := rfl
  refine ⟨?_, ?_, ?_, ?_⟩
  · intro h
    unfold multi_dct
    rw [all_dct_transfers_eq, if_pos (hnum ▸ h)]
  · intro h
    unfold multi_dct
    rw [all_dct_transfers_eq, if_neg (hnum ▸ h)]
  · intro p h
    unfold single_dct multi_dct
    rw [all_dct_transfers_eq, h]
    rfl
  · intro h
    unfold single_dct multi_dct
    rw [all_dct_transfers_eq, if_neg (hnum ▸ h)]

/-- Witness for C6: exact count succeeds, wrong count fails, and the `N = 1`
instance extracts the sole payment. -/
theorem multi_dct_fixed_count_witness :
    multi_dct { moax_value := 0, dct_transfers := [⟨[65], 0, 1⟩, ⟨[66], 3, 2⟩] } 2 =
      .ok [⟨[65], 0, 1⟩, ⟨[66], 3, 2⟩] ∧
    multi_dct { moax_value := 0, dct_transfers := [⟨[65], 0, 1⟩] } 3 =
      .error INCORRECT_NUM_DCT_TRANSFERS ∧
    single_dct { moax_value := 0, dct_transfers := [⟨[67], 9, 4⟩] } = .ok ⟨[67], 9, 4⟩ ∧
    single_dct { moax_value := 0, dct_transfers := [] } =
      .error INCORRECT_NUM_DCT_TRANSFERS :=
  ⟨(multi_dct_fixed_count _ 2).1 rfl,
   (multi_dct_fixed_count _ 3).2.1 (by decide),
   (multi_dct_fixed_count _ 1).2.2.1 ⟨[67], 9, 4⟩ rfl,
   (multi_dct_fixed_count _ 1).2.2.2 (by decide)⟩

/-- Claim C7: the fungible-only paths fail with the fungibility-mismatch error
whenever the resolved nonce is nonzero — `single_fungible_dct` requires exactly one
transfer with nonce 0 and returns only (identifier, amount), and
`moax_or_single_fungible_dct` performs the same three-way resolution as
`moax_or_single_dct` but additionally fails on a nonzero nonce. -/
theorem fungible_paths_nonce_check (cv : CallValueState) :
    (∀ p, cv.dct_transfers = [p] → p.token_nonce = 0 →
      single_fungible_dct cv = .ok (p.token_identifier, p.amount)) ∧
    (∀ p, cv.dct_transfers = [p] → p.token_nonce ≠ 0 →
      single_fungible_dct cv = .error FUNGIBLE_TOKEN_EXPECTED_ERR_MSG) ∧
    (dct_num_transfers cv ≠ 1 →
      single_fungible_dct cv = .error INCORRECT_NUM_DCT_TRANSFERS) ∧
    (cv.dct_transfers = [] →
      moax_or_single_fungible_dct cv = .ok (.moax, cv.moax_value)) ∧
    (∀ p, cv.dct_transfers = [p] → p.token_nonce = 0 →
      moax_or_single_fungible_dct cv = .ok (.dct p.token_identifier, p.amount)) ∧
    (∀ p, cv.dct_transfers = [p] → p.token_nonce ≠ 0 →
      moax_or_single_fungible_dct cv = .error FUNGIBLE_TOKEN_EXPECTED_ERR_MSG) ∧
    (2 ≤ cv.dct_transfers.length →
      moax_or_single_fungible_dct cv = .error INCORRECT_NUM_DCT_TRANSFERS) := by
  have hnum : dct_num_transfers cv = cv.dct_transfers.length := rfl
  refine ⟨?_, ?_, ?_, ?_, ?_, ?_, ?_⟩
  · intro p h hz
    unfold single_fungible_dct single_dct multi_dct
    rw [all_dct_transfers_eq, h]
    simp [hz]
  · intro p h hz
    unfold single_fungible_dct single_dct multi_dct
    rw [all_dct_transfers_eq, h]
    simp [hz]
  · intro h
    unfold single_fungible_dct single_dct multi_dct
    rw [all_dct_transfers_eq, if_neg (hnum ▸ h)]
  · intro h
    unfold moax_or_single_fungible_dct moax_or_single_dct
    rw [all_dct_transfers_eq, h]
    rfl
  · intro p h hz
    unfold moax_or_single_fungible_dct moax_or_single_dct
    rw [all_dct_transfers_eq, h]
    simp [DctTokenPayment.into_moax_or_dct, hz]
  · intro p h hz
    unfold moax_or_single_fungible_dct moax_or_single_dct
    rw [all_dct_transfers_eq, h]
    simp [DctTokenPayment.into_moax_or_dct, hz]
  · intro h
    unfold moax_or_single_fungible_dct moax_or_single_dct
    rw [all_dct_transfers_eq]
    obtain ⟨k, hk⟩ := Nat.exists_eq_add_of_le h
    rw [hk, Nat.add_comm 2 k]

/-- Witness for C7: each fungible-path resolution at a concrete call value. -/
theorem fungible_paths_nonce_check_witness :
    single_fungible_dct { moax_value := 0, dct_transfers := [⟨[65], 0, 9⟩] } =
      .ok ([65], 9) ∧
    single_fungible_dct { moax_value := 0, dct_transfers := [⟨[65], 4, 9⟩] } =
      .error FUNGIBLE_TOKEN_EXPECTED_ERR_MSG ∧
    single_fungible_dct { moax_value := 0, dct_transfers := [] } =
      .error INCORRECT_NUM_DCT_TRANSFERS ∧
    moax_or_single_fungible_dct { moax_value := 3, dct_transfers := [] } =
      .ok (.moax, 3) ∧
    moax_or_single_fungible_dct { moax_value := 0, dct_transfers := [⟨[66], 0, 8⟩] } =
      .ok (.dct [66], 8) ∧
    moax_or_single_fungible_dct { moax_value := 0, dct_transfers := [⟨[66], 2, 8⟩] } =
      .error FUNGIBLE_TOKEN_EXPECTED_ERR_MSG ∧
    moax_or_single_fungible_dct
        { moax_value := 0, dct_transfers := [⟨[65], 0, 1⟩, ⟨[66], 0, 2⟩] } =
      .error INCORRECT_NUM_DCT_TRANSFERS :=
  ⟨(fungible_paths_nonce_check _).1 ⟨[65], 0, 9⟩ rfl rfl,
   (fungible_paths_nonce_check _).2.1 ⟨[65], 4, 9⟩ rfl (by decide),
   (fungible_paths_nonce_check _).2.2.1 (by decide),
   (fungible_paths_nonce_check _).2.2.2.1 rfl,
   (fungible_paths_nonce_check _).2.2.2.2.1 ⟨[66], 0, 8⟩ rfl rfl,
   (fungible_paths_nonce_check _).2.2.2.2.2.1 ⟨[66], 2, 8⟩ rfl (by decide),
   (fungible_paths_nonce_check _).2.2.2.2.2.2 (by decide)⟩

/-! ## Claim theorems: result checker, mock engine, scenario descriptor -/

/-- Claim C8: a `TransactionLog` check succeeds iff the four independent field
checks (address, endpoint, topics, data) all succeed; a pattern set of only
unspecified or wildcard entries matches any actual log, and an exact pattern makes
the whole check fail on any actual value differing from it in that field. -/
theorem denali_check_fieldwise (log : TxLog) (check_log : CheckLog) :
    (log.denali_check check_log = true ↔
      (check_log.address.check log.address = true ∧
       check_log.endpoint.check log.endpoint = true ∧
       check_log.topics.check log.topics = true ∧
       check_log.data.check log.data = true)) ∧
    ((check_log.address = .unspecified ∨ check_log.address = .star) →
     (check_log.endpoint = .unspecified ∨ check_log.endpoint = .star) →
     (check_log.topics = .unspecified ∨ check_log.topics = .star) →
     (check_log.data = .unspecified ∨ check_log.data = .star) →
     log.denali_check check_log = true) ∧
    (∀ v, check_log.address = .equal v → v ≠ log.address →
      log.denali_check check_log = false) ∧
    (∀ v, check_log.endpoint = .equal v → v ≠ log.endpoint →
      log.denali_check check_log = false) ∧
    (∀ v, check_log.topics = .equal v → v ≠ log.topics →
      log.denali_check check_log = false) ∧
    (∀ v, check_log.data = .equal v → v ≠ log.data →
      log.denali_check check_log = false) := by
  refine ⟨?_, ?_, ?_, ?_, ?_, ?_⟩
  · unfold TxLog.denali_check
    simp [Bool.and_eq_true, and_assoc]
  · intro h1 h2 h3 h4
    unfold TxLog.denali_check
    rcases h1 with h1 | h1 <;> rcases h2 with h2 | h2 <;> rcases h3 with h3 | h3 <;>
      rcases h4 with h4 | h4 <;> rw [h1, h2, h3, h4] <;> rfl
  · intro v hv hne
    unfold TxLog.denali_check
    rw [hv]
    simp [CheckPattern.check, hne]
  · intro v hv hne
    unfold TxLog.denali_check
    rw [hv]
    simp [CheckPattern.check, hne]
  · intro v hv hne
    unfold TxLog.denali_check
    rw [hv]
    simp [CheckPattern.check, hne]
  · intro v hv hne
    unfold TxLog.denali_check
    rw [hv]
    simp [CheckPattern.check, hne]

/-- Witness for C8: a wildcard-only pattern set accepts a concrete log, and an
exact address pattern differing in one byte rejects it. -/
theorem denali_check_fieldwise_witness :
    TxLog.denali_check ⟨[1], [2], [[3]], [4]⟩
      { address := .unspecified, endpoint := .star,
        topics := .unspecified, data := .star } = true ∧
    TxLog.denali_check ⟨[1], [2], [[3]], [4]⟩
      { address := .equal [9], endpoint := .star,
        topics := .unspecified, data := .star } = false :=
  ⟨(denali_check_fieldwise ⟨[1], [2], [[3]], [4]⟩ _).2.1
      (Or.inl rfl) (Or.inr rfl) (Or.inl rfl) (Or.inr rfl),
   (denali_check_fieldwise ⟨[1], [2], [[3]], [4]⟩ _).2.2.1 [9] rfl (by decide)⟩

/-- Claim C5: if a nested call fails, the World State seen by the resuming parent
is exactly the state snapshotted when the nested call was issued, the frame's
pending logs are discarded, the frame is rolled back and the failure propagated —
except that a transfer-and-execute call keeps its unconditional value movement. -/
theorem nested_call_rollback (ws : WorldState)
    (value_transfer : WorldState → WorldState)
    (body : WorldState → Except String (WorldState × List TxLog)) (e : String)
    (h : body (value_transfer ws) = .error e) :
    (run_nested_call .sync ws value_transfer body).world = ws ∧
    (run_nested_call .sync ws value_transfer body).logs = [] ∧
    (run_nested_call .sync ws value_transfer body).status = .rolledBack ∧
    (run_nested_call .sync ws value_transfer body).failure = some e ∧
    (run_nested_call .transferExecute ws value_transfer body).world =
      value_transfer ws ∧
    (run_nested_call .transferExecute ws value_transfer body).logs = [] := by
  unfold run_nested_call
  rw [h]
  exact ⟨rfl, rfl, rfl, rfl, rfl, rfl⟩

/-- Witness for C5: a failing body rolls a concrete one-account World State back to
its pre-call value for a synchronous call, and keeps only the value movement for a
transfer-and-execute call. -/
theorem nested_call_rollback_witness :
    (run_nested_call .sync [([1], ⟨10, [], []⟩)] (fun _ => [])
        (fun _ => .error "out of gas")).world = [([1], ⟨10, [], []⟩)] ∧
    (run_nested_call .transferExecute [([1], ⟨10, [], []⟩)] (fun _ => [])
        (fun _ => .error "out of gas")).world = [] :=
  ⟨(nested_call_rollback [([1], ⟨10, [], []⟩)] (fun _ => [])
      (fun _ => .error "out of gas") "out of gas" rfl).1,
   (nested_call_rollback [([1], ⟨10, [], []⟩)] (fun _ => [])
      (fun _ => .error "out of gas") "out of gas" rfl).2.2.2.2.1⟩

/-- Claim C10: `TxCall::into_raw` always emits the legacy bare `value` field as
absent and writes the native amount only under the explicit `moax_value` spelling,
so a regenerated raw record never carries the legacy spelling and never carries
both spellings at once. -/
theorem tx_call_into_raw_no_legacy_value (tx : TxCall) :
    tx.into_raw.value = none ∧
    tx.into_raw.moax_value = tx.moax_value.into_raw_opt ∧
    (tx.into_raw.value.isSome && tx.into_raw.moax_value.isSome) = false :=
  ⟨rfl, rfl, rfl⟩

/-- Witness for C4: the concrete identifier `"ALC-6258d2"` admits the declarative
ticker-dash-suffix decomposition, via the characterization. -/
theorem moax_or_dct_is_valid_witness :
    ValidDctIdentifierSpec (strBytes "ALC-6258d2") :=
  (moax_or_dct_is_valid.2.1 (strBytes "ALC-6258d2")).mp (by decide)

/-- Witness for C9: MOAX compares unequal to the token identifier whose bytes are
the reserved marker itself. -/
theorem moax_neq_any_token_identifier_witness :
    MoaxOrDctTokenIdentifier.eq_token_identifier .moax MOAX_REPRESENTATION = false :=
  (moax_neq_any_token_identifier MOAX_REPRESENTATION).1

/-- Witness for C2: loading reproduces a concrete two-transfer list verbatim. -/
theorem load_all_transfers_exact_witness :
    load_all_dct_transfers_from_unmanaged
      { moax_value := 0, dct_transfers := [⟨[65], 1, 2⟩, ⟨[66], 0, 3⟩] } =
      [⟨[65], 1, 2⟩, ⟨[66], 0, 3⟩] :=
  (load_all_transfers_exact _).1

/-- Witness for C10: a concrete descriptor regenerates with no legacy `value`
field. -/
theorem tx_call_into_raw_no_legacy_value_witness :
    (TxCall.into_raw
      { from_ := ⟨[1], "address:a"⟩, to_ := ⟨[2], "address:b"⟩
        moax_value := ⟨100, "100"⟩, dct_value := [], function := "foo"
        arguments := [], gas_limit := ⟨5000, "5,000"⟩
        gas_price := ⟨1, "1"⟩ }).value = none :=
  (tx_call_into_raw_no_legacy_value _).1

end MxSdk
